import Mathlib

/-!
Verification of the mock NFL game simulation engine of `pico-scoreboard`
(`src/backend/src/mock/simulation/`).  The Rust code is shallowly embedded:

* machine integers (`u8`, `u16`, `u64`, `i8`, `i16`) become `Nat`/`Int`,
  with explicit wrapping helpers (`wrapI8`, `toU8`) at the spots where the
  Rust code performs lossy `as` casts;
* the `StdRng` pseudo-random generator becomes an abstract draw stream
  `Rng` (an arbitrary function `Nat → Nat` plus a cursor): each call to
  `gen_bool` / `gen_range` consumes exactly one draw, exactly in the order
  the Rust code makes the calls.  None of the verified properties depend on
  the distribution of `StdRng`, only on which calls happen and on the ranges
  requested;
* `&mut` state updates become explicit state passing;
* wall-clock reads (`Instant`) and the `f64` `time_scale` are outside the
  embedding: `advance_to_target` is modelled directly on its
  `target_game_seconds` argument, and the unbounded Rust `while` loop
  becomes a fuel-indexed loop returning `none` when the fuel runs out
  before the loop exits, so a `some` result is exactly a real result of
  the Rust loop.
-/

namespace PicoScoreboard

/-! ## Abstract random number generator (model of `rand::rngs::StdRng`) -/

/-- A deterministic draw stream: `gen` is the stream, `idx` the cursor.
Each primitive `rand` call consumes exactly one draw. -/
structure Rng where
  gen : Nat → Nat
  idx : Nat

/-- Consume one raw draw. -/
def Rng.next (r : Rng) : Nat × Rng :=
  (r.gen r.idx, ⟨r.gen, r.idx + 1⟩)

/-- Model of `rng.gen_bool(p)` for a probability `p = num / den`:
one draw, reduced modulo `den` and compared with `num`. -/
def genBool (num den : Nat) (r : Rng) : Bool × Rng :=
  let p := r.next
  (decide (p.1 % den < num), p.2)

/-- Model of `rng.gen_range(lo..hi)` on unsigned integers (half-open). -/
def genRange (lo hi : Nat) (r : Rng) : Nat × Rng :=
  let p := r.next
  (lo + p.1 % (hi - lo), p.2)

/-- Model of `rng.gen_range(lo..hi)` on signed integers (half-open). -/
def genRangeIntExcl (lo hi : Int) (r : Rng) : Int × Rng :=
  let p := r.next
  (lo + (p.1 : Int) % (hi - lo), p.2)

/-- Model of `rng.gen_range(lo..=hi)` on signed integers (inclusive). -/
def genRangeIntIncl (lo hi : Int) (r : Rng) : Int × Rng :=
  genRangeIntExcl lo (hi + 1) r

/-! ## Machine-integer helpers -/

/-- Rust `x as i8` on an integer already reduced modulo 256 may be negative:
wrap into `[-128, 127]`. -/
def wrapI8 (x : Int) : Int :=
  (x + 128) % 256 - 128

/-- Rust `x as u8` (wrapping cast into `[0, 255]`). -/
def toU8 (x : Int) : Nat :=
  (x % 256).toNat

/-- Rust `d as i8` applied to a `u8` value `d`. -/
def u8AsI8 (n : Nat) : Int :=
  if n < 128 then (n : Int) else (n : Int) - 256

/-- Rust `u8::saturating_add`. -/
def satAddU8 (a b : Nat) : Nat :=
  min (a + b) 255

/-! ## Decimal rendering (model of Rust `format!` integer display) -/

/-- Decimal digits of `n`, most significant first; structural recursion on a
fuel argument so that the definition reduces in the kernel (`fuel = n` always
suffices because `n / 10 < n` for `n ≥ 10`). -/
def natDigitsAux : Nat → Nat → List Char
  | 0, n => [Nat.digitChar n]
  | fuel + 1, n =>
      if n < 10 then [Nat.digitChar n]
      else natDigitsAux fuel (n / 10) ++ [Nat.digitChar (n % 10)]

/-- Decimal digit characters of `n` (Rust `format!` on an unsigned value). -/
def natDigits (n : Nat) : List Char :=
  natDigitsAux n n

/-- Rust `format!` of an unsigned integer, as a `String`. -/
def natStr (n : Nat) : String :=
  String.mk (natDigits n)

/-- Rust `format!` of a signed integer, as a `String`. -/
def intStr (x : Int) : String :=
  if x < 0 then "-" ++ natStr x.natAbs else natStr x.toNat

/-! ## Enumerations (`src/backend/src/game/types.rs`) -/

/-- `Quarter` from `game/types.rs`. -/
inductive Quarter where
  | First | Second | Third | Fourth | Overtime | DoubleOvertime
  deriving DecidableEq, Repr

/-- `Down` from `game/types.rs`. -/
inductive Down where
  | First | Second | Third | Fourth
  deriving DecidableEq, Repr

/-- `Possession` from `game/types.rs`. -/
inductive Possession where
  | Home | Away
  deriving DecidableEq, Repr

/-- `PlayType` from `game/types.rs` (full closed enumeration). -/
inductive PlayType where
  | EndPeriod | EndHalf | EndGame | CoinToss | Timeout | OfficialTimeout
  | TwoMinuteWarning
  | PassReception | PassIncompletion | Interception
  | InterceptionReturnTouchdown | PassingTouchdown | Sack
  | Rush | RushingTouchdown | TwoPointRush
  | FumbleRecoveryOwn | FumbleRecoveryOpponent
  | FieldGoalGood | FieldGoalMissed | BlockedFieldGoal | MissedFieldGoalReturn
  | Punt | BlockedPunt
  | Kickoff | KickoffReturn | KickoffReturnTouchdown
  | ExtraPointGood | ExtraPointMissed | TwoPointPass
  | Safety
  | Penalty
  | Unknown
  deriving DecidableEq, Repr

/-- `ScoringPlay` from `mock/simulation/plays.rs`. -/
inductive ScoringPlay where
  | Touchdown | FieldGoal | Safety
  deriving DecidableEq, Repr

/-! ## Data structures -/

/-- `Color` from `game/types.rs`. -/
structure Color where
  r : Nat
  g : Nat
  b : Nat
  deriving DecidableEq, Repr

/-- `PlayOutcome` from `mock/simulation/plays.rs`; `yards_gained` is a Rust
`i8`, `clock_elapsed` a `u16`. -/
structure PlayOutcome where
  play_type : PlayType
  yards_gained : Int
  clock_elapsed : Nat
  description : String
  turnover : Bool
  scoring : Option ScoringPlay
  deriving DecidableEq, Repr

/-- `SimulatedPlay` from `mock/simulation/state.rs`. -/
structure SimulatedPlay where
  play_type : PlayType
  yards_gained : Int
  description : String
  clock_elapsed : Nat
  deriving DecidableEq, Repr

/-- `TeamInfo` from `mock/simulation/state.rs`. -/
structure TeamInfo where
  abbreviation : String
  color : Color
  record : Option String
  deriving DecidableEq, Repr

/-- `WeatherInfo` from `mock/simulation/state.rs`. -/
structure WeatherInfo where
  temp : Int
  description : String
  deriving DecidableEq, Repr

/-- `LiveState` from `mock/simulation/state.rs`.  The wall-clock field
`game_start_instant` and the `f64` field `time_scale` are not part of the
embedding (no verified claim depends on them); everything else is kept. -/
structure LiveState where
  home_team : TeamInfo
  away_team : TeamInfo
  home_score : Nat
  away_score : Nat
  quarter : Quarter
  clock_seconds : Nat
  clock_running : Bool
  possession : Possession
  down : Down
  distance : Nat
  yard_line : Nat
  home_timeouts : Nat
  away_timeouts : Nat
  last_play : Option SimulatedPlay
  play_history : List SimulatedPlay
  rng : Rng
  simulated_game_seconds : Nat
  kickoff_pending : Bool
  weather : Option WeatherInfo

/-! ## Play generation (`mock/simulation/plays.rs`) -/

/-- `select_play_type`: one roll in `0..100`, then the down-and-distance
weight table. -/
def selectPlayType (r : Rng) (down : Down) (distance : Nat) (quarter : Quarter)
    (clock_seconds : Nat) (yard_line : Nat) : PlayType × Rng :=
  let p := genRange 0 100 r
  let roll := p.1
  let r1 := p.2
  let inTwoMinute : Bool :=
    decide (clock_seconds ≤ 120) &&
      (decide (quarter = Quarter.Second) || decide (quarter = Quarter.Fourth))
  let inRedZone : Bool := decide (yard_line ≥ 80)
  let ty :=
    match down with
    | Down.First =>
        if inTwoMinute then
          if roll < 75 then PlayType.PassReception else PlayType.Rush
        else if roll < 45 then PlayType.Rush else PlayType.PassReception
    | Down.Second =>
        if 1 ≤ distance ∧ distance ≤ 3 then
          if roll < 55 then PlayType.Rush else PlayType.PassReception
        else if 4 ≤ distance ∧ distance ≤ 7 then
          if roll < 45 then PlayType.Rush else PlayType.PassReception
        else
          if roll < 30 then PlayType.Rush else PlayType.PassReception
    | Down.Third =>
        if 1 ≤ distance ∧ distance ≤ 3 then
          if inRedZone ∧ roll < 65 then PlayType.Rush
          else if roll < 50 then PlayType.Rush
          else PlayType.PassReception
        else if 4 ≤ distance ∧ distance ≤ 7 then
          if roll < 25 then PlayType.Rush else PlayType.PassReception
        else
          if roll < 15 then PlayType.Rush
          else if roll < 90 then PlayType.PassReception
          else PlayType.Rush
    | Down.Fourth => PlayType.Punt
  (ty, r1)

/-- `generate_kickoff`. -/
def generateKickoff (r : Rng) : PlayOutcome × Rng :=
  let tb := genBool 65 100 r
  if tb.1 then
    ({ play_type := PlayType.Kickoff
       yards_gained := 0
       clock_elapsed := 5
       description := "Kickoff, touchback."
       turnover := false
       scoring := none }, tb.2)
  else
    let ry := genRangeIntExcl 15 35 tb.2
    let ck := genRange 5 10 ry.2
    ({ play_type := PlayType.KickoffReturn
       yards_gained := ry.1
       clock_elapsed := ck.1
       description := "Kickoff returned for " ++ intStr ry.1 ++ " yards."
       turnover := false
       scoring := none }, ck.2)

/-- `generate_rush_yards`: one bucket roll, then one in-bucket draw; capped
at the remaining yards to the goal line. -/
def generateRushYards (r : Rng) (yard_line : Nat) : Int × Rng :=
  let p := genRange 0 100 r
  let roll := p.1
  let yp :=
    if roll < 15 then genRangeIntIncl (-3) 0 p.2
    else if roll < 55 then genRangeIntIncl 1 4 p.2
    else if roll < 85 then genRangeIntIncl 5 9 p.2
    else if roll < 95 then genRangeIntIncl 10 19 p.2
    else genRangeIntIncl 20 75 p.2
  let maxYards : Int := (100 : Int) - (yard_line : Int)
  (min yp.1 maxYards, yp.2)

/-- `generate_pass_yards`. -/
def generatePassYards (r : Rng) (yard_line : Nat) (distance : Nat) : Int × Rng :=
  let p := genRange 0 100 r
  let roll := p.1
  let targetBoost : Int := if distance ≥ 5 then 3 else 0
  let yp :=
    if roll < 10 then genRangeIntIncl (-2) 2 p.2
    else if roll < 35 then
      let q := genRangeIntIncl 3 7 p.2
      (q.1 + targetBoost / 2, q.2)
    else if roll < 70 then
      let q := genRangeIntIncl 8 15 p.2
      (q.1 + targetBoost, q.2)
    else if roll < 90 then genRangeIntIncl 16 30 p.2
    else genRangeIntIncl 31 75 p.2
  let maxYards : Int := (100 : Int) - (yard_line : Int)
  (min yp.1 maxYards, yp.2)

/-- `generate_sack_play`. -/
def generateSackPlay (r : Rng) : PlayOutcome × Rng :=
  let yl := genRangeIntIncl 3 10 r
  let ck := genRange 25 40 yl.2
  ({ play_type := PlayType.Sack
     yards_gained := -yl.1
     clock_elapsed := ck.1
     description := "SACKED for a loss of " ++ intStr yl.1 ++ " yards!"
     turnover := false
     scoring := none }, ck.2)

/-- `generate_rush_play`. -/
def generateRushPlay (r : Rng) (yard_line : Nat) : PlayOutcome × Rng :=
  let fb := genBool 1 100 r
  if fb.1 then
    let side := genBool 50 100 fb.2
    if side.1 then
      let ck := genRange 5 10 side.2
      ({ play_type := PlayType.FumbleRecoveryOpponent
         yards_gained := 0
         clock_elapsed := ck.1
         description := "FUMBLE! Recovered by the defense."
         turnover := true
         scoring := none }, ck.2)
    else
      let yd := genRangeIntIncl (-3) 0 side.2
      let ck := genRange 20 35 yd.2
      ({ play_type := PlayType.FumbleRecoveryOwn
         yards_gained := yd.1
         clock_elapsed := ck.1
         description := "Fumble, recovered by the offense."
         turnover := false
         scoring := none }, ck.2)
  else
    let yd := generateRushYards fb.2 yard_line
    let yards := yd.1
    if (yard_line : Int) + yards ≥ 100 then
      let ck := genRange 5 15 yd.2
      ({ play_type := PlayType.RushingTouchdown
         yards_gained := (100 : Int) - (yard_line : Int)
         clock_elapsed := ck.1
         description := "TOUCHDOWN! " ++ natStr (100 - yard_line) ++ " yard rushing TD!"
         turnover := false
         scoring := some ScoringPlay.Touchdown }, ck.2)
    else if (yard_line : Int) + yards ≤ 0 then
      let ck := genRange 5 10 yd.2
      ({ play_type := PlayType.Safety
         yards_gained := -(yard_line : Int)
         clock_elapsed := ck.1
         description := "SAFETY! Tackled in the end zone!"
         turnover := true
         scoring := some ScoringPlay.Safety }, ck.2)
    else
      -- Rust short-circuit: the 30% out-of-bounds draw happens only when
      -- `yards >= 0`.
      let ckp :=
        if yards < 0 then genRange 5 15 yd.2
        else
          let ob := genBool 30 100 yd.2
          if ob.1 then genRange 5 15 ob.2 else genRange 25 45 ob.2
      ({ play_type := PlayType.Rush
         yards_gained := yards
         clock_elapsed := ckp.1
         description :=
           if yards > 0 then "Rush for " ++ intStr yards ++ " yards."
           else if yards = 0 then "Rush for no gain."
           else "Rush for a loss of " ++ intStr (-yards) ++ " yards."
         turnover := false
         scoring := none }, ckp.2)

/-- `generate_pass_play`. -/
def generatePassPlay (r : Rng) (yard_line : Nat) (distance : Nat) : PlayOutcome × Rng :=
  let sk := genBool 7 100 r
  if sk.1 then generateSackPlay sk.2
  else
    let ic := genBool 25 1000 sk.2
    if ic.1 then
      let ck := genRange 5 10 ic.2
      ({ play_type := PlayType.Interception
         yards_gained := 0
         clock_elapsed := ck.1
         description := "INTERCEPTED!"
         turnover := true
         scoring := none }, ck.2)
    else
      let inc := genBool 35 100 ic.2
      if inc.1 then
        let ck := genRange 5 10 inc.2
        ({ play_type := PlayType.PassIncompletion
           yards_gained := 0
           clock_elapsed := ck.1
           description := "Pass incomplete."
           turnover := false
           scoring := none }, ck.2)
      else
        let yd := generatePassYards inc.2 yard_line distance
        let yards := yd.1
        if (yard_line : Int) + yards ≥ 100 then
          let ck := genRange 5 15 yd.2
          ({ play_type := PlayType.PassingTouchdown
             yards_gained := (100 : Int) - (yard_line : Int)
             clock_elapsed := ck.1
             description := "TOUCHDOWN! " ++ natStr (100 - yard_line) ++ " yard passing TD!"
             turnover := false
             scoring := some ScoringPlay.Touchdown }, ck.2)
        else
          let ob := genBool 25 100 yd.2
          let ckp := if ob.1 then genRange 5 15 ob.2 else genRange 25 45 ob.2
          ({ play_type := PlayType.PassReception
             yards_gained := yards
             clock_elapsed := ckp.1
             description :=
               if yards > 0 then "Pass complete for " ++ intStr yards ++ " yards."
               else "Pass complete for a loss of " ++ intStr (-yards) ++ " yards."
             turnover := false
             scoring := none }, ckp.2)

/-- The field-goal success probability table of `generate_fourth_down_play`
(numerator over 100, keyed by kick distance). -/
def fgRateNum (d : Nat) : Nat :=
  if d ≤ 30 then 95
  else if d ≤ 40 then 85
  else if d ≤ 50 then 70
  else if d ≤ 55 then 55
  else 40

/-- The `desperate` condition of `generate_fourth_down_play`: fourth
quarter, under two minutes, and the possessing team trailing. -/
def fourthDownDesperate (quarter : Quarter) (clock_seconds : Nat)
    (possession : Possession) (home_score : Nat) (away_score : Nat) : Prop :=
  clock_seconds < 120 ∧ quarter = Quarter.Fourth ∧
    ((possession = Possession.Home ∧ home_score < away_score) ∨
      (possession = Possession.Away ∧ away_score < home_score))

instance (quarter : Quarter) (clock_seconds : Nat) (possession : Possession)
    (home_score : Nat) (away_score : Nat) :
    Decidable (fourthDownDesperate quarter clock_seconds possession home_score away_score) := by
  unfold fourthDownDesperate
  infer_instance

/-- `generate_fourth_down_play`.  `fg_distance = 100 - yard_line + 17` is
`u8` arithmetic in Rust, hence the wrapping helper. -/
def generateFourthDownPlay (r : Rng) (distance : Nat) (yard_line : Nat)
    (quarter : Quarter) (clock_seconds : Nat) (possession : Possession)
    (home_score : Nat) (away_score : Nat) : PlayOutcome × Rng :=
  let inFgRange := yard_line ≥ 55
  let shouldPunt := ¬inFgRange ∧ yard_line < 60
  let goForIt := distance ≤ 2 ∧ yard_line ≥ 50
  let desperate :=
    fourthDownDesperate quarter clock_seconds possession home_score away_score
  if inFgRange ∧ ¬desperate then
    let fgDistance := toU8 (toU8 ((100 : Int) - (yard_line : Int)) + 17)
    let mk := genBool (fgRateNum fgDistance) 100 r
    if mk.1 then
      ({ play_type := PlayType.FieldGoalGood
         yards_gained := 0
         clock_elapsed := 5
         description := natStr fgDistance ++ " yard field goal is GOOD!"
         turnover := false
         scoring := some ScoringPlay.FieldGoal }, mk.2)
    else
      ({ play_type := PlayType.FieldGoalMissed
         yards_gained := 0
         clock_elapsed := 5
         description := natStr fgDistance ++ " yard field goal is NO GOOD."
         turnover := true
         scoring := none }, mk.2)
  else if shouldPunt ∧ ¬desperate ∧ ¬goForIt then
    let pd := genRangeIntExcl 35 55 r
    let ck := genRange 5 10 pd.2
    ({ play_type := PlayType.Punt
       yards_gained := -pd.1
       clock_elapsed := ck.1
       description := "Punt for " ++ intStr pd.1 ++ " yards."
       turnover := true
       scoring := none }, ck.2)
  else
    if distance ≤ 2 then generateRushPlay r yard_line
    else generatePassPlay r yard_line distance

/-- `generate_play`: kickoff first, fourth down next, otherwise the weighted
rush/pass selection.  Only the RNG part of the state is mutated, so the
result is the outcome together with the advanced RNG. -/
def generatePlay (s : LiveState) : PlayOutcome × Rng :=
  if s.kickoff_pending then generateKickoff s.rng
  else if s.down = Down.Fourth then
    generateFourthDownPlay s.rng s.distance s.yard_line s.quarter
      s.clock_seconds s.possession s.home_score s.away_score
  else
    let sp := selectPlayType s.rng s.down s.distance s.quarter
      s.clock_seconds s.yard_line
    match sp.1 with
    | PlayType.Rush => generateRushPlay sp.2 s.yard_line
    | PlayType.PassReception => generatePassPlay sp.2 s.yard_line s.distance
    | PlayType.PassIncompletion => generatePassPlay sp.2 s.yard_line s.distance
    | PlayType.Sack => generateSackPlay sp.2
    | _ => generateRushPlay sp.2 s.yard_line

/-- `outcome_to_play`. -/
def outcomeToPlay (o : PlayOutcome) : SimulatedPlay :=
  { play_type := o.play_type
    yards_gained := o.yards_gained
    description := o.description
    clock_elapsed := o.clock_elapsed }

/-! ## Drive logic (`mock/simulation/drives.rs`) -/

/-- `opponent`. -/
def opponent : Possession → Possession
  | Possession.Home => Possession.Away
  | Possession.Away => Possession.Home

/-- `next_down`. -/
def nextDown : Down → Down
  | Down.First => Down.Second
  | Down.Second => Down.Third
  | Down.Third => Down.Fourth
  | Down.Fourth => Down.First

/-- `add_score` (u8 saturating add on the possessing team's score). -/
def addScore (s : LiveState) (points : Nat) : LiveState :=
  if s.possession = Possession.Home then
    { s with home_score := satAddU8 s.home_score points }
  else
    { s with away_score := satAddU8 s.away_score points }

/-- `flip_possession`. -/
def flipPossession (s : LiveState) : LiveState :=
  { s with possession := opponent s.possession }

/-- `setup_kickoff_after_score`. -/
def setupKickoffAfterScore (s : LiveState) : LiveState :=
  { s with possession := opponent s.possession
           kickoff_pending := true
           yard_line := 35
           down := Down.First
           distance := 10 }

/-- `handle_touchdown`: six points, then one RNG draw for the 94% extra
point, then the kickoff setup. -/
def handleTouchdown (s : LiveState) : LiveState :=
  let s1 := addScore s 6
  let pr := genBool 94 100 s1.rng
  let s2 :=
    if pr.1 then addScore { s1 with rng := pr.2 } 1 else { s1 with rng := pr.2 }
  setupKickoffAfterScore s2

/-- `handle_field_goal`. -/
def handleFieldGoal (s : LiveState) : LiveState :=
  setupKickoffAfterScore (addScore s 3)

/-- `handle_safety`. -/
def handleSafety (s : LiveState) : LiveState :=
  let s1 :=
    if opponent s.possession = Possession.Home then
      { s with home_score := s.home_score + 2 }
    else
      { s with away_score := s.away_score + 2 }
  { s1 with possession := opponent s1.possession
            kickoff_pending := true
            down := Down.First
            distance := 10
            yard_line := 20 }

/-- `handle_turnover`: the interception and punt arms draw from the RNG,
the other arms do not. -/
def handleTurnover (s : LiveState) (o : PlayOutcome) : LiveState :=
  match o.play_type with
  | PlayType.Interception =>
      let s1 := flipPossession s
      let yp := genRange 25 40 s1.rng
      { s1 with rng := yp.2, yard_line := yp.1, down := Down.First, distance := 10 }
  | PlayType.FumbleRecoveryOpponent =>
      let s1 := flipPossession s
      { s1 with yard_line := toU8 ((100 : Int) - (s1.yard_line : Int))
                down := Down.First
                distance := 10 }
  | PlayType.Punt =>
      let s1 := flipPossession s
      let puntDistance := toU8 (-o.yards_gained)
      let afterPunt := toU8 ((100 : Int) - (min (s1.yard_line + puntDistance) 95 : Nat))
      let rp := genRange 5 15 s1.rng
      { s1 with rng := rp.2
                yard_line := min (afterPunt + rp.1) 99
                down := Down.First
                distance := 10 }
  | PlayType.FieldGoalMissed =>
      let s1 := flipPossession s
      { s1 with yard_line := toU8 ((100 : Int) - (s1.yard_line : Int))
                down := Down.First
                distance := 10 }
  | PlayType.BlockedFieldGoal =>
      let s1 := flipPossession s
      { s1 with yard_line := toU8 ((100 : Int) - (s1.yard_line : Int))
                down := Down.First
                distance := 10 }
  | _ =>
      let s1 := flipPossession s
      { s1 with yard_line := toU8 ((100 : Int) - (s1.yard_line : Int))
                down := Down.First
                distance := 10 }

/-- `handle_kickoff_return`. -/
def handleKickoffReturn (s : LiveState) (o : PlayOutcome) : LiveState :=
  let s1 := { s with kickoff_pending := false }
  let s2 :=
    if o.play_type = PlayType.Kickoff then { s1 with yard_line := 25 }
    else { s1 with yard_line := toU8 (max o.yards_gained 20) }
  { s2 with down := Down.First, distance := 10 }

/-- `handle_turnover_on_downs`. -/
def handleTurnoverOnDowns (s : LiveState) : LiveState :=
  let s1 := flipPossession s
  { s1 with yard_line := toU8 ((100 : Int) - (s1.yard_line : Int))
            down := Down.First
            distance := 10 }

/-- `update_field_position`.  The i16 clamp cannot overflow; the i8 distance
arithmetic wraps (`wrapI8`, Rust release semantics).  Note that on a turnover
on downs the Rust function returns early, so the clamped `new_yard_line` is
NOT written in that case: the pre-play `yard_line` is flipped instead. -/
def updateFieldPosition (s : LiveState) (o : PlayOutcome) : LiveState :=
  let newYardLine : Nat := (max 1 (min 99 ((s.yard_line : Int) + o.yards_gained))).toNat
  let yardsGained := o.yards_gained
  let gainedFirstDown := yardsGained ≥ u8AsI8 s.distance
  if gainedFirstDown then
    { s with down := Down.First
             distance := min 10 (100 - newYardLine)
             yard_line := newYardLine }
  else if yardsGained ≥ 0 then
    let s1 := { s with distance := toU8 (max (wrapI8 (u8AsI8 s.distance - yardsGained)) 1)
                       down := nextDown s.down }
    if s1.down = Down.First then handleTurnoverOnDowns s1
    else { s1 with yard_line := newYardLine }
  else
    let s1 := { s with distance := toU8 (min (wrapI8 (u8AsI8 s.distance - yardsGained)) 99)
                       down := nextDown s.down }
    if s1.down = Down.First then handleTurnoverOnDowns s1
    else { s1 with yard_line := newYardLine }

/-- `apply_play_outcome`: scoring first, then turnovers, then kickoffs, then
the regular field-position update. -/
def applyPlayOutcome (s : LiveState) (o : PlayOutcome) : LiveState :=
  match o.scoring with
  | some ScoringPlay.Touchdown => handleTouchdown s
  | some ScoringPlay.FieldGoal => handleFieldGoal s
  | some ScoringPlay.Safety => handleSafety s
  | none =>
      if o.turnover then handleTurnover s o
      else if o.play_type = PlayType.Kickoff ∨ o.play_type = PlayType.KickoffReturn then
        handleKickoffReturn s o
      else updateFieldPosition s o

/-! ## Game state helpers (`mock/simulation/state.rs`) -/

/-- `LiveState::is_game_over`. -/
def isGameOver (s : LiveState) : Bool :=
  if s.clock_seconds > 0 then false
  else
    match s.quarter with
    | Quarter.Fourth => decide (s.home_score ≠ s.away_score)
    | Quarter.Overtime => decide (s.home_score ≠ s.away_score)
    | Quarter.DoubleOvertime => decide (s.home_score ≠ s.away_score)
    | _ => false

/-- `format_clock`: minutes un-zero-padded, seconds zero-padded to width 2,
as character lists. -/
def formatClockChars (seconds : Nat) : List Char :=
  let mins := seconds / 60
  let secs := seconds % 60
  natDigits mins ++ ':' :: (if secs < 10 then '0' :: natDigits secs else natDigits secs)

/-- `format_clock` as a `String`. -/
def formatClock (seconds : Nat) : String :=
  String.mk (formatClockChars seconds)

/-- `Situation` from `game/types.rs`. -/
structure Situation where
  down : Down
  distance : Nat
  yard_line : Nat
  possession : Possession
  red_zone : Bool
  deriving DecidableEq, Repr

/-- `TeamWithScore` from `game/types.rs`. -/
structure TeamWithScore where
  abbreviation : String
  color : Color
  record : Option String
  score : Nat
  timeouts : Nat
  deriving DecidableEq, Repr

/-- `LastPlay` from `game/types.rs`. -/
structure LastPlay where
  play_type : PlayType
  text : Option String
  deriving DecidableEq, Repr

/-- `Weather` from `game/types.rs`. -/
structure Weather where
  temp : Int
  description : String
  deriving DecidableEq, Repr

/-- `LiveGame` from `game/types.rs`. -/
structure LiveGame where
  event_id : String
  home : TeamWithScore
  away : TeamWithScore
  quarter : Quarter
  clock : String
  clock_running : Bool
  situation : Option Situation
  last_play : Option LastPlay
  weather : Option Weather
  deriving DecidableEq, Repr

/-- `LiveState::to_live_game`: the published projection of a live state. -/
def toLiveGame (s : LiveState) (event_id : String) : LiveGame :=
  let situation :=
    if s.kickoff_pending then none
    else
      some { down := s.down
             distance := s.distance
             yard_line := s.yard_line
             possession := s.possession
             red_zone := decide (s.yard_line ≥ 80) }
  { event_id := event_id
    home := { abbreviation := s.home_team.abbreviation
              color := s.home_team.color
              record := s.home_team.record
              score := s.home_score
              timeouts := s.home_timeouts }
    away := { abbreviation := s.away_team.abbreviation
              color := s.away_team.color
              record := s.away_team.record
              score := s.away_score
              timeouts := s.away_timeouts }
    quarter := s.quarter
    clock := formatClock s.clock_seconds
    clock_running := s.clock_running
    situation := situation
    last_play := s.last_play.map (fun p =>
      { play_type := p.play_type, text := some p.description })
    weather := s.weather.map (fun w =>
      { temp := w.temp, description := w.description }) }

/-! ## Simulation engine (`mock/simulation/engine.rs`) -/

/-- `is_halftime`. -/
def isHalftime (s : LiveState) : Bool :=
  decide (s.quarter = Quarter.Second) && decide (s.clock_seconds = 0)

/-- `handle_halftime`. -/
def handleHalftime (s : LiveState) : LiveState :=
  { s with quarter := Quarter.Third
           clock_seconds := 900
           possession := opponent s.possession
           kickoff_pending := true
           home_timeouts := 3
           away_timeouts := 3 }

/-- `handle_quarter_end`: the Bool is the Rust return value (`false` means
the game is over and the advancement loop breaks). -/
def handleQuarterEnd (s : LiveState) : Bool × LiveState :=
  match s.quarter with
  | Quarter.First => (true, { s with quarter := Quarter.Second, clock_seconds := 900 })
  | Quarter.Second => (true, s)
  | Quarter.Third => (true, { s with quarter := Quarter.Fourth, clock_seconds := 900 })
  | Quarter.Fourth =>
      if s.home_score = s.away_score then
        (true, { s with quarter := Quarter.Overtime
                        clock_seconds := 600
                        kickoff_pending := true
                        home_timeouts := 2
                        away_timeouts := 2 })
      else (false, s)
  | Quarter.Overtime =>
      if s.home_score = s.away_score then
        (true, { s with quarter := Quarter.DoubleOvertime, clock_seconds := 600 })
      else (false, s)
  | Quarter.DoubleOvertime => (false, s)

/-- `should_clock_run`. -/
def shouldClockRun (o : PlayOutcome) : Bool :=
  if o.scoring.isSome then false
  else if o.turnover then false
  else
    match o.play_type with
    | PlayType.PassIncompletion => false
    | PlayType.Interception => false
    | PlayType.Timeout => false
    | PlayType.OfficialTimeout => false
    | PlayType.TwoMinuteWarning => false
    | PlayType.Penalty => false
    | PlayType.Punt => false
    | PlayType.Kickoff => false
    | PlayType.KickoffReturn => false
    | PlayType.FieldGoalGood => false
    | PlayType.FieldGoalMissed => false
    | PlayType.EndPeriod => false
    | _ => true

/-- The play step of `advance_to_target` (lines 45-77 of `engine.rs`):
generate a play, cap its duration at the remaining clock, apply it, record
it, update the clock (full capped duration when the clock runs, otherwise at
most 5 seconds), add the capped duration to `simulated_game_seconds`, and
apply the two-minute-warning stop. -/
def stepPlay (s : LiveState) : LiveState :=
  let pr := generatePlay s
  let outcome := pr.1
  let playDuration := min outcome.clock_elapsed s.clock_seconds
  let s1 := applyPlayOutcome { s with rng := pr.2 } outcome
  let play := outcomeToPlay outcome
  -- `apply_play_outcome` never touches the clock, the play record fields or
  -- `simulated_game_seconds`, so the remaining sequential Rust updates
  -- (record the play, update the clock, set `clock_running`, add the capped
  -- duration) collapse into one record update of the post-apply state.
  let s5 := { s1 with
              last_play := some play
              play_history := s1.play_history ++ [play]
              clock_seconds :=
                if shouldClockRun outcome then s1.clock_seconds - playDuration
                else s1.clock_seconds - min 5 playDuration
              clock_running := shouldClockRun outcome
              simulated_game_seconds := s1.simulated_game_seconds + playDuration }
  if s5.clock_seconds ≤ 120 ∧ 115 < s5.clock_seconds ∧
      (s5.quarter = Quarter.Second ∨ s5.quarter = Quarter.Fourth) then
    { s5 with clock_running := false }
  else s5

/-- The `while` loop of `advance_to_target`, indexed by fuel.  `none` means
the fuel ran out with the loop still running; a `some` result is exactly the
state in which the Rust loop exits. -/
def advanceLoop : Nat → LiveState → Nat → Option LiveState
  | 0, s, target =>
      if s.simulated_game_seconds < target ∧ ¬isGameOver s then none else some s
  | fuel + 1, s, target =>
      if s.simulated_game_seconds < target ∧ ¬isGameOver s then
        if isHalftime s then advanceLoop fuel (handleHalftime s) target
        else if s.clock_seconds = 0 then
          let qe := handleQuarterEnd s
          if qe.1 then advanceLoop fuel qe.2 target else some qe.2
        else advanceLoop fuel (stepPlay s) target
      else some s

/-- `advance_to_target`: the target is capped at four game-hours beyond the
already-simulated time before the loop runs. -/
def advanceToTarget (fuel : Nat) (s : LiveState) (targetGameSeconds : Nat) :
    Option LiveState :=
  advanceLoop fuel s (min targetGameSeconds (s.simulated_game_seconds + 3600 * 4))

/-! ## Repository helpers (`mock/simulation/repository.rs`) -/

/-- Rust `str::split(':')` (keeps empty segments, never returns an empty
list of parts). -/
def splitColon : List Char → List (List Char)
  | [] => [[]]
  | c :: cs =>
      if c = ':' then [] :: splitColon cs
      else
        match splitColon cs with
        | [] => [[c]]
        | p :: ps => (c :: p) :: ps

/-- Rust `str::parse::<u16>()`: an optional leading plus sign, then a
non-empty run of ASCII digits whose value fits in a `u16`. -/
def parseU16 (cs : List Char) : Option Nat :=
  let ds := match cs with | '+' :: rest => rest | _ => cs
  if ds.isEmpty then none
  else if ds.all (fun c => c.isDigit) then
    let v := ds.foldl (fun a c => a * 10 + (c.toNat - 48)) 0
    if v ≤ 65535 then some v else none
  else none

/-- `parse_clock` on character lists: split on the colon, require exactly two
parts, parse both as `u16`, return `mins * 60 + secs` (u16 arithmetic, hence
the mod; it never wraps for any input this development evaluates it on). -/
def parseClockChars (cs : List Char) : Option Nat :=
  let parts := splitColon cs
  if parts.length = 2 then
    match parseU16 (parts.getD 0 []), parseU16 (parts.getD 1 []) with
    | some m, some s => some ((m * 60 + s) % 65536)
    | _, _ => none
  else none

/-- `parse_clock` on `String`. -/
def parseClock (clock : String) : Option Nat :=
  parseClockChars clock.data

/-- `NflTeam` from `mock/teams.rs`. -/
structure NflTeam where
  abbreviation : String
  color : Color
  deriving DecidableEq, Repr

/-- The 32-entry team table `NFL_TEAMS` from `mock/teams.rs`. -/
def nflTeams : List NflTeam :=
  [⟨"BUF", ⟨0, 51, 141⟩⟩, ⟨"MIA", ⟨0, 142, 151⟩⟩, ⟨"NE", ⟨0, 34, 68⟩⟩,
   ⟨"NYJ", ⟨18, 87, 64⟩⟩, ⟨"BAL", ⟨36, 23, 115⟩⟩, ⟨"CIN", ⟨251, 79, 20⟩⟩,
   ⟨"CLE", ⟨49, 29, 0⟩⟩, ⟨"PIT", ⟨255, 182, 18⟩⟩, ⟨"HOU", ⟨3, 32, 47⟩⟩,
   ⟨"IND", ⟨0, 44, 95⟩⟩, ⟨"JAX", ⟨16, 24, 32⟩⟩, ⟨"TEN", ⟨12, 35, 64⟩⟩,
   ⟨"DEN", ⟨251, 79, 20⟩⟩, ⟨"KC", ⟨227, 24, 55⟩⟩, ⟨"LV", ⟨0, 0, 0⟩⟩,
   ⟨"LAC", ⟨0, 128, 198⟩⟩, ⟨"DAL", ⟨0, 53, 148⟩⟩, ⟨"NYG", ⟨1, 35, 82⟩⟩,
   ⟨"PHI", ⟨0, 76, 84⟩⟩, ⟨"WSH", ⟨90, 20, 20⟩⟩, ⟨"CHI", ⟨11, 22, 42⟩⟩,
   ⟨"DET", ⟨0, 118, 182⟩⟩, ⟨"GB", ⟨24, 48, 40⟩⟩, ⟨"MIN", ⟨79, 38, 131⟩⟩,
   ⟨"ATL", ⟨167, 25, 48⟩⟩, ⟨"CAR", ⟨0, 133, 202⟩⟩, ⟨"NO", ⟨211, 188, 141⟩⟩,
   ⟨"TB", ⟨213, 10, 10⟩⟩, ⟨"ARI", ⟨151, 35, 63⟩⟩, ⟨"LAR", ⟨0, 53, 148⟩⟩,
   ⟨"SF", ⟨170, 0, 0⟩⟩, ⟨"SEA", ⟨0, 34, 68⟩⟩]

/-- `find_team`: case-insensitive lookup by abbreviation. -/
def findTeam (abbr : String) : Option NflTeam :=
  nflTeams.find? (fun t => t.abbreviation = abbr.toUpper)

/-- Swap two positions of a list (helper for the shuffle). -/
def listSwap (l : List Nat) (i j : Nat) : List Nat :=
  (l.set i (l.getD j 0)).set j (l.getD i 0)

/-- The Fisher-Yates downward pass of `rand::seq::SliceRandom::shuffle`:
for `i` from `len - 1` down to `1`, swap position `i` with a drawn position
in `0..=i`. -/
def shuffleAux : Nat → List Nat → Rng → List Nat × Rng
  | 0, l, r => (l, r)
  | i + 1, l, r =>
      let p := genRange 0 (i + 2) r
      shuffleAux i (listSwap l (i + 1) p.1) p.2

/-- `get_matchup`: shuffle the 32 indices, take the first two. -/
def getMatchup (r : Rng) : NflTeam × NflTeam × Rng :=
  let sh := shuffleAux 31 (List.range 32) r
  let d : NflTeam := ⟨"", ⟨0, 0, 0⟩⟩
  ((nflTeams.getD (sh.1.getD 0 0) d), (nflTeams.getD (sh.1.getD 1 0) d), sh.2)

/-- `random_record`: a random W-L(-T) record string. -/
def randomRecord (r : Rng) : String × Rng :=
  let w := genRange 0 18 r
  let l := genRange 0 (18 - w.1) w.2
  let t := genBool 5 100 l.2
  (if t.1 then natStr w.1 ++ "-" ++ natStr l.1 ++ "-1"
   else natStr w.1 ++ "-" ++ natStr l.1, t.2)

/-- `TeamInfo::from_nfl_team`. -/
def teamInfoFromNfl (t : NflTeam) (record : Option String) : TeamInfo :=
  { abbreviation := t.abbreviation, color := t.color, record := record }

/-- The unbounded retry loop of `resolve_teams` (redraw a matchup until the
away team differs from the home team), indexed by fuel; with the fuel
exhausted the last draw is kept. -/
def resolveAwayLoop : Nat → String → Rng → NflTeam × Rng
  | 0, _, r =>
      let m := getMatchup r
      (m.2.1, m.2.2)
  | fuel + 1, homeAbbr, r =>
      let m := getMatchup r
      if m.2.1.abbreviation ≠ homeAbbr then (m.2.1, m.2.2)
      else resolveAwayLoop fuel homeAbbr m.2.2

/-- `resolve_teams`: look the requested abbreviations up, fall back to random
matchups, then attach random records. -/
def resolveTeams (home away : Option String) (r : Rng) :
    TeamInfo × TeamInfo × Rng :=
  let hp : NflTeam × Rng :=
    match home.bind findTeam with
    | some t => (t, r)
    | none =>
        let m := getMatchup r
        (m.1, m.2.2)
  let ap : NflTeam × Rng :=
    match away.bind findTeam with
    | some t => (t, hp.2)
    | none => resolveAwayLoop 64 hp.1.abbreviation hp.2
  let hr := randomRecord ap.2
  let ar := randomRecord hr.2
  (teamInfoFromNfl hp.1 (some hr.1), teamInfoFromNfl ap.1 (some ar.1), ar.2)

/-- `CreateLiveOptions` from `mock/simulation/options.rs` (the `f64`
`time_scale` option is outside the embedding, like the field it feeds). -/
structure CreateLiveOptions where
  home_team : Option String
  away_team : Option String
  home_score : Option Nat
  away_score : Option Nat
  quarter : Option Quarter
  clock : Option String
  possession : Option Possession
  down : Option Down
  distance : Option Nat
  yard_line : Option Nat
  home_timeouts : Option Nat
  away_timeouts : Option Nat
  seed : Option Nat

/-- `create_live_state`.  `entropySeed` stands for the `rand::random()`
fallback seed and `seedToRng` for `StdRng::seed_from_u64` (the ChaCha
construction itself is outside the embedding; every verified statement holds
for an arbitrary seeding function). -/
def createLiveState (entropySeed : Nat) (seedToRng : Nat → Rng)
    (opts : CreateLiveOptions) : LiveState :=
  let seed := opts.seed.getD entropySeed
  let r0 := seedToRng seed
  let tr := resolveTeams opts.home_team opts.away_team r0
  let pr : Possession × Rng :=
    match opts.possession with
    | some p => (p, tr.2.2)
    | none =>
        let c := genBool 50 100 tr.2.2
        (if c.1 then Possession.Home else Possession.Away, c.2)
  { home_team := tr.1
    away_team := tr.2.1
    home_score := opts.home_score.getD 0
    away_score := opts.away_score.getD 0
    quarter := opts.quarter.getD Quarter.First
    clock_seconds := (opts.clock.bind parseClock).getD 900
    clock_running := false
    possession := pr.1
    down := opts.down.getD Down.First
    distance := opts.distance.getD 10
    yard_line := opts.yard_line.getD 25
    home_timeouts := opts.home_timeouts.getD 3
    away_timeouts := opts.away_timeouts.getD 3
    last_play := none
    play_history := []
    rng := pr.2
    simulated_game_seconds := 0
    kickoff_pending := opts.yard_line.isNone && opts.possession.isNone
    weather := none }

/-- `PregameState` from `mock/simulation/state.rs` (`start_time` abstracted
to an integer timestamp; the `f64` `time_scale` outside the embedding). -/
structure PregameState where
  home_team : TeamInfo
  away_team : TeamInfo
  start_time : Int
  venue : String
  broadcast : String
  weather : Option WeatherInfo
  seed : Nat

/-- `LiveState::new`: coin toss for the opening possession, 15:00 clock,
opening kickoff pending, weather carried in. -/
def liveStateNew (seedToRng : Nat → Rng) (home_team away_team : TeamInfo)
    (seed : Nat) (weather : Option WeatherInfo) : LiveState :=
  let c := genBool 50 100 (seedToRng seed)
  { home_team := home_team
    away_team := away_team
    home_score := 0
    away_score := 0
    quarter := Quarter.First
    clock_seconds := 900
    clock_running := false
    possession := if c.1 then Possession.Home else Possession.Away
    down := Down.First
    distance := 10
    yard_line := 25
    home_timeouts := 3
    away_timeouts := 3
    last_play := none
    play_history := []
    rng := c.2
    simulated_game_seconds := 0
    kickoff_pending := true
    weather := weather }

/-- `PregameState::to_live_state`. -/
def toLiveState (seedToRng : Nat → Rng) (p : PregameState) : LiveState :=
  liveStateNew seedToRng p.home_team p.away_team p.seed p.weather

/-! ## Concrete fixtures used by witnesses and counterexamples -/

/-- A fixed home team for concrete states. -/
def teamA : TeamInfo := ⟨"KC", ⟨227, 24, 55⟩, none⟩

/-- A fixed away team for concrete states. -/
def teamB : TeamInfo := ⟨"PHI", ⟨0, 76, 84⟩, none⟩

/-- Draw pattern that makes every generated play a zero-yard rush taking 44
seconds: play-type roll 0 (rush), no fumble, bucket roll 0, in-bucket draw 3
(zero yards), in-bounds, clock draw 19 (25 + 19 = 44). -/
def rushPattern : List Nat := [0, 99, 0, 3, 99, 19]

/-- A live state on 1st and 10 at midfield with only 7 seconds left on the
quarter clock, whose next generated play is a 44-second rush. -/
def shortClockState : LiveState :=
  { home_team := teamA, away_team := teamB, home_score := 0, away_score := 0
    quarter := Quarter.First, clock_seconds := 7, clock_running := true
    possession := Possession.Home, down := Down.First, distance := 10
    yard_line := 50, home_timeouts := 3, away_timeouts := 3
    last_play := none, play_history := [], rng := ⟨fun n => rushPattern.getD (n % 6) 0, 0⟩
    simulated_game_seconds := 0, kickoff_pending := false, weather := none }

/-- A live game tied 17-17 at the end of double overtime (clock zero). -/
def tiedDoubleOvertimeState : LiveState :=
  { home_team := teamA, away_team := teamB, home_score := 17, away_score := 17
    quarter := Quarter.DoubleOvertime, clock_seconds := 0, clock_running := false
    possession := Possession.Home, down := Down.First, distance := 10
    yard_line := 25, home_timeouts := 2, away_timeouts := 2
    last_play := none, play_history := [], rng := ⟨fun _ => 0, 0⟩
    simulated_game_seconds := 3000, kickoff_pending := false, weather := none }

/-! ## Helper lemmas -/

theorem genRange_fst_lt (lo hi : Nat) (r : Rng) (h : lo < hi) :
    (genRange lo hi r).1 < hi := by
  have hm : r.gen r.idx % (hi - lo) < hi - lo := Nat.mod_lt _ (by omega)
  simp only [genRange, Rng.next]
  omega

theorem genRange_fst_le (lo hi : Nat) (r : Rng) :
    lo ≤ (genRange lo hi r).1 := by
  simp only [genRange, Rng.next]
  omega

theorem genRangeIntExcl_fst_bounds (lo hi : Int) (r : Rng) (h : lo < hi) :
    lo ≤ (genRangeIntExcl lo hi r).1 ∧ (genRangeIntExcl lo hi r).1 < hi := by
  have h0 : (0 : Int) ≤ ((r.gen r.idx : Nat) : Int) % (hi - lo) :=
    Int.emod_nonneg _ (by omega)
  have h1 : ((r.gen r.idx : Nat) : Int) % (hi - lo) < hi - lo :=
    Int.emod_lt_of_pos _ (by omega)
  simp only [genRangeIntExcl, Rng.next]
  omega

theorem nextDown_eq_first (d : Down) : nextDown d = Down.First ↔ d = Down.Fourth := by
  cases d <;> simp [nextDown]

theorem opponent_ne (p : Possession) : opponent p ≠ p := by
  cases p <;> simp [opponent]

theorem rng_bump_ne (r : Rng) : (⟨r.gen, r.idx + 1⟩ : Rng) ≠ r := by
  intro h
  have h2 := congrArg Rng.idx h
  simp at h2

/-! ## Claim C2 -/

/-- C2: the spec says a live game tied at the end of double overtime is over
(Final, winner tie).  In the code the advancement loop does stop there
(`handle_quarter_end` returns `false` for `DoubleOvertime`, "Game over, even
if tied"), but `is_game_over` — the predicate the repository uses to convert
Live to Final — still demands unequal scores, so a tied game at the end of
OT2 stays Live forever and never reaches Final with winner "tie".  Evaluated
at a concrete tied-OT2 state: the quarter-end handler reports the game over
while `is_game_over` denies it, and a full advancement call leaves the state
live and unchanged. -/
theorem quarterEnd_and_isGameOver_disagree_on_tied_ot2 :
    (handleQuarterEnd tiedDoubleOvertimeState).1 = false ∧
    isGameOver tiedDoubleOvertimeState = false ∧
    (advanceToTarget 100 tiedDoubleOvertimeState 1000000).map
      (fun t => (isGameOver t, t.simulated_game_seconds,
        decide (t.quarter = Quarter.DoubleOvertime))) =
      some (false, 3000, true) :=
  ⟨rfl, rfl, rfl⟩

/-! ## Claim C7 -/

/-- C7: the published live snapshot omits the situation object exactly when
`kickoff_pending` is true; otherwise the situation carries the state's down,
distance, yard line and possession, with `red_zone` true iff
`yard_line ≥ 80`. -/
theorem situation_omitted_iff_kickoff_pending (s : LiveState) (eid : String) :
    (s.kickoff_pending = true → (toLiveGame s eid).situation = none) ∧
    (s.kickoff_pending = false →
      ∃ sit, (toLiveGame s eid).situation = some sit ∧
        sit.down = s.down ∧ sit.distance = s.distance ∧
        sit.yard_line = s.yard_line ∧ sit.possession = s.possession ∧
        (sit.red_zone = true ↔ 80 ≤ s.yard_line)) := by
  constructor
  · intro h
    simp [toLiveGame, h]
  · intro h
    refine ⟨{ down := s.down, distance := s.distance, yard_line := s.yard_line,
              possession := s.possession, red_zone := decide (s.yard_line ≥ 80) },
      by simp [toLiveGame, h], rfl, rfl, rfl, rfl, ?_⟩
    simp [ge_iff_le]

/-- Witness for C7 at a concrete kickoff-pending state and its non-kickoff
variant. -/
theorem situation_omitted_iff_kickoff_pending_witness :
    (toLiveGame { shortClockState with kickoff_pending := true } "g").situation = none :=
  (situation_omitted_iff_kickoff_pending
    { shortClockState with kickoff_pending := true } "g").1 rfl

/-! ## Claim C9 -/

/-- C9: a game created directly in the live phase always has `weather = none`
whatever options the request supplies, while the pregame-to-live transition
carries the pregame weather into the live state unchanged. -/
theorem created_live_weather_is_none :
    (∀ entropySeed seedToRng opts,
      (createLiveState entropySeed seedToRng opts).weather = none) ∧
    (∀ seedToRng p, (toLiveState seedToRng p).weather = p.weather) :=
  ⟨fun _ _ _ => rfl, fun _ _ => rfl⟩

/-! ## Claim C8 -/

theorem splitColon_no_colon (b : List Char) (h : ':' ∉ b) : splitColon b = [b] := by
  induction b with
  | nil => rfl
  | cons c cs ih =>
      have hc : ¬(c = ':') := fun e => h (by simp [e])
      have hcs : ':' ∉ cs := fun m => h (List.mem_cons_of_mem _ m)
      simp [splitColon, hc, ih hcs]

theorem splitColon_append (a b : List Char) (h : ':' ∉ a) :
    splitColon (a ++ ':' :: b) = a :: splitColon b := by
  induction a with
  | nil => simp [splitColon]
  | cons c cs ih =>
      have hc : ¬(c = ':') := fun e => h (by simp [e])
      have hcs : ':' ∉ cs := fun m => h (List.mem_cons_of_mem _ m)
      rw [List.cons_append]
      simp only [splitColon, if_neg hc, ih hcs]

theorem minutes_digits_parse :
    ∀ m < 60, ':' ∉ natDigits m ∧ parseU16 (natDigits m) = some m := by decide

theorem seconds_digits_parse :
    ∀ r < 60, ':' ∉ (if r < 10 then '0' :: natDigits r else natDigits r) ∧
      parseU16 (if r < 10 then '0' :: natDigits r else natDigits r) = some r := by decide

/-- C8: for every clock value in `[0, 3599]`, parsing the formatted clock
string gives the value back (`parse_clock ∘ format_clock = some`), the
formatting being un-padded minutes, a colon, and two-digit seconds. -/
theorem parse_clock_format_clock_roundtrip (s : Nat) (h : s ≤ 3599) :
    parseClock (formatClock s) = some s := by
  have hm := minutes_digits_parse (s / 60) (by omega)
  have hr := seconds_digits_parse (s % 60) (Nat.mod_lt _ (by norm_num))
  show parseClockChars (formatClockChars s) = some s
  unfold formatClockChars parseClockChars
  rw [splitColon_append _ _ hm.1, splitColon_no_colon _ hr.1]
  simp only [List.length_cons, List.length_nil, List.getD, List.get?, Option.getD_some,
    hm.2, hr.2, if_pos rfl]
  have hs : s / 60 * 60 + s % 60 = s := by omega
  have hlt : s / 60 * 60 + s % 60 < 65536 := by omega
  simp [hs, Nat.mod_eq_of_lt (hs ▸ hlt)]

/-- Witness for C8 at the concrete clock value 754 ("12:34"). -/
theorem parse_clock_format_clock_roundtrip_witness :
    (754 : Nat) ≤ 3599 ∧ parseClock (formatClock 754) = some 754 :=
  ⟨by norm_num, parse_clock_format_clock_roundtrip 754 (by norm_num)⟩

/-! ## Frame lemmas for the drive handlers -/

theorem addScore_frame (s : LiveState) (p : Nat) :
    (addScore s p).possession = s.possession ∧ (addScore s p).rng = s.rng ∧
    (addScore s p).clock_seconds = s.clock_seconds ∧
    (addScore s p).simulated_game_seconds = s.simulated_game_seconds := by
  unfold addScore
  split_ifs <;> exact ⟨rfl, rfl, rfl, rfl⟩

theorem handleTouchdown_frame (s : LiveState) :
    (handleTouchdown s).possession = opponent s.possession ∧
    (handleTouchdown s).rng = ⟨s.rng.gen, s.rng.idx + 1⟩ ∧
    (handleTouchdown s).clock_seconds = s.clock_seconds ∧
    (handleTouchdown s).simulated_game_seconds = s.simulated_game_seconds := by
  simp only [handleTouchdown, setupKickoffAfterScore, addScore, genBool, Rng.next]
  split_ifs <;> exact ⟨rfl, rfl, rfl, rfl⟩

theorem handleFieldGoal_frame (s : LiveState) :
    (handleFieldGoal s).possession = opponent s.possession ∧
    (handleFieldGoal s).rng = s.rng ∧
    (handleFieldGoal s).clock_seconds = s.clock_seconds ∧
    (handleFieldGoal s).simulated_game_seconds = s.simulated_game_seconds := by
  simp only [handleFieldGoal, setupKickoffAfterScore, addScore]
  split_ifs <;> exact ⟨rfl, rfl, rfl, rfl⟩

theorem handleSafety_frame (s : LiveState) :
    (handleSafety s).possession = opponent s.possession ∧
    (handleSafety s).rng = s.rng ∧
    (handleSafety s).clock_seconds = s.clock_seconds ∧
    (handleSafety s).simulated_game_seconds = s.simulated_game_seconds := by
  simp only [handleSafety]
  split_ifs <;> exact ⟨rfl, rfl, rfl, rfl⟩

theorem handleTurnover_frame (s : LiveState) (o : PlayOutcome) :
    (handleTurnover s o).possession = opponent s.possession ∧
    (handleTurnover s o).rng =
      (if o.play_type = PlayType.Interception ∨ o.play_type = PlayType.Punt then
        ⟨s.rng.gen, s.rng.idx + 1⟩ else s.rng) ∧
    (handleTurnover s o).clock_seconds = s.clock_seconds ∧
    (handleTurnover s o).simulated_game_seconds = s.simulated_game_seconds := by
  cases h : o.play_type <;>
    simp [handleTurnover, h, flipPossession, genRange, Rng.next]

theorem handleKickoffReturn_frame (s : LiveState) (o : PlayOutcome) :
    (handleKickoffReturn s o).possession = s.possession ∧
    (handleKickoffReturn s o).rng = s.rng ∧
    (handleKickoffReturn s o).clock_seconds = s.clock_seconds ∧
    (handleKickoffReturn s o).simulated_game_seconds = s.simulated_game_seconds := by
  simp only [handleKickoffReturn]
  split_ifs <;> exact ⟨rfl, rfl, rfl, rfl⟩

theorem updateFieldPosition_frame (s : LiveState) (o : PlayOutcome) :
    (updateFieldPosition s o).possession =
      (if s.down = Down.Fourth ∧ ¬(u8AsI8 s.distance ≤ o.yards_gained) then
        opponent s.possession else s.possession) ∧
    (updateFieldPosition s o).rng = s.rng ∧
    (updateFieldPosition s o).clock_seconds = s.clock_seconds ∧
    (updateFieldPosition s o).simulated_game_seconds = s.simulated_game_seconds := by
  simp only [updateFieldPosition, handleTurnoverOnDowns, flipPossession, ge_iff_le]
  split_ifs with h1 h2 h3 h4 h5 h6 h7 <;>
    simp_all [nextDown_eq_first]

theorem applyPlayOutcome_clock_and_sim (s : LiveState) (o : PlayOutcome) :
    (applyPlayOutcome s o).clock_seconds = s.clock_seconds ∧
    (applyPlayOutcome s o).simulated_game_seconds = s.simulated_game_seconds := by
  cases h : o.scoring with
  | none =>
      simp only [applyPlayOutcome, h]
      split_ifs with ht hk
      · exact ⟨(handleTurnover_frame s o).2.2.1, (handleTurnover_frame s o).2.2.2⟩
      · exact ⟨(handleKickoffReturn_frame s o).2.2.1, (handleKickoffReturn_frame s o).2.2.2⟩
      · exact ⟨(updateFieldPosition_frame s o).2.2.1, (updateFieldPosition_frame s o).2.2.2⟩
  | some sc =>
      cases sc <;> simp only [applyPlayOutcome, h]
      · exact ⟨(handleTouchdown_frame s).2.2.1, (handleTouchdown_frame s).2.2.2⟩
      · exact ⟨(handleFieldGoal_frame s).2.2.1, (handleFieldGoal_frame s).2.2.2⟩
      · exact ⟨(handleSafety_frame s).2.2.1, (handleSafety_frame s).2.2.2⟩

/-! ## Claim C1 -/

/-- C1 (as stated, refuted at a concrete input): at the short-clock state the
generated play's `clock_elapsed` (44s) exceeds the remaining clock (7s), and
a step of the advancement loop does NOT add the full uncapped elapsed to
`simulated_game_seconds` — it adds only the capped 7 seconds. -/
theorem uncapped_elapsed_counterexample :
    shortClockState.clock_seconds < (generatePlay shortClockState).1.clock_elapsed ∧
    (stepPlay shortClockState).simulated_game_seconds ≠
      shortClockState.simulated_game_seconds +
        (generatePlay shortClockState).1.clock_elapsed ∧
    (stepPlay shortClockState).simulated_game_seconds =
      shortClockState.simulated_game_seconds + shortClockState.clock_seconds := by
  refine ⟨by decide, ?_, by rfl⟩
  intro h
  exact absurd ((rfl : (stepPlay shortClockState).simulated_game_seconds = 7).symm.trans h)
    (by decide)

/-- C1 (amended): when the generated play's `clock_elapsed` exceeds the
remaining `clock_seconds`, the engine decrements the clock only by the
capped amount (to zero when the clock runs, else by at most 5 seconds), and
it also adds only the capped amount — `clock_seconds`, not the full
`clock_elapsed` — to `simulated_game_seconds`. -/
theorem capped_play_increments_simulated_by_clock (s : LiveState)
    (h : s.clock_seconds < (generatePlay s).1.clock_elapsed) :
    (stepPlay s).simulated_game_seconds =
      s.simulated_game_seconds + s.clock_seconds ∧
    (stepPlay s).clock_seconds =
      (if shouldClockRun (generatePlay s).1 then 0
       else s.clock_seconds - min 5 s.clock_seconds) := by
  have hmin : min (generatePlay s).1.clock_elapsed s.clock_seconds = s.clock_seconds :=
    Nat.min_eq_right (Nat.le_of_lt h)
  have hframe := applyPlayOutcome_clock_and_sim
    { s with rng := (generatePlay s).2 } (generatePlay s).1
  simp only [stepPlay, hmin]
  split_ifs <;> simp_all

/-- Witness for the amended C1 at the concrete short-clock state. -/
theorem capped_play_increments_simulated_by_clock_witness :
    (stepPlay shortClockState).simulated_game_seconds =
      shortClockState.simulated_game_seconds + shortClockState.clock_seconds ∧
    (stepPlay shortClockState).clock_seconds =
      (if shouldClockRun (generatePlay shortClockState).1 then 0
       else shortClockState.clock_seconds - min 5 shortClockState.clock_seconds) :=
  capped_play_increments_simulated_by_clock shortClockState (by decide)

/-! ## Claim C3 -/

/-- C3 (as stated, refuted at a concrete input): applying a touchdown
outcome to the short-clock state advances the RNG (the 94% extra-point
draw), so `apply_play_outcome` does mutate the RNG. -/
theorem apply_outcome_mutates_rng_counterexample :
    ¬((applyPlayOutcome shortClockState
        { play_type := PlayType.RushingTouchdown, yards_gained := 50,
          clock_elapsed := 8, description := "TD", turnover := false,
          scoring := some ScoringPlay.Touchdown }).rng = shortClockState.rng) := by
  intro h
  have h2 := congrArg Rng.idx h
  exact absurd ((rfl : (applyPlayOutcome shortClockState
    { play_type := PlayType.RushingTouchdown, yards_gained := 50,
      clock_elapsed := 8, description := "TD", turnover := false,
      scoring := some ScoringPlay.Touchdown }).rng.idx = 1).symm.trans h2) (by decide)

/-- C3 (amended): `apply_play_outcome` leaves the RNG unchanged except in
exactly three cases, where it draws once: a touchdown (extra-point roll), an
interception (spot of the return), and a punt (return yards). -/
theorem apply_outcome_rng_mutation_iff (s : LiveState) (o : PlayOutcome) :
    (applyPlayOutcome s o).rng = s.rng ↔
      ¬(o.scoring = some ScoringPlay.Touchdown ∨
        (o.scoring = none ∧ o.turnover = true ∧
          (o.play_type = PlayType.Interception ∨ o.play_type = PlayType.Punt))) := by
  cases h : o.scoring with
  | none =>
      simp only [applyPlayOutcome, h]
      split_ifs with ht hk
      · rw [(handleTurnover_frame s o).2.1]
        split_ifs with hip
        · simp [h, ht, hip, rng_bump_ne]
        · simp [h, ht, hip]
      · simp [(handleKickoffReturn_frame s o).2.1, h, ht]
      · simp [(updateFieldPosition_frame s o).2.1, h, ht]
  | some sc =>
      cases sc
      · simp only [applyPlayOutcome, h]
        simp [(handleTouchdown_frame s).2.1, rng_bump_ne, h]
      · simp only [applyPlayOutcome, h]
        simp [(handleFieldGoal_frame s).2.1, h]
      · simp only [applyPlayOutcome, h]
        simp [(handleSafety_frame s).2.1, h]

/-! ## Claim C6 -/

theorem applyPlayOutcome_possession_ne_iff (s : LiveState) (o : PlayOutcome) :
    (applyPlayOutcome s o).possession ≠ s.possession ↔
      (o.scoring.isSome = true ∨ o.turnover = true ∨
        (o.play_type ≠ PlayType.Kickoff ∧ o.play_type ≠ PlayType.KickoffReturn ∧
          s.down = Down.Fourth ∧ ¬(u8AsI8 s.distance ≤ o.yards_gained))) := by
  cases h : o.scoring with
  | some sc =>
      have hp : (applyPlayOutcome s o).possession = opponent s.possession := by
        cases sc <;> simp only [applyPlayOutcome, h]
        · exact (handleTouchdown_frame s).1
        · exact (handleFieldGoal_frame s).1
        · exact (handleSafety_frame s).1
      simp [hp, opponent_ne, h]
  | none =>
      simp only [applyPlayOutcome, h]
      split_ifs with ht hk
      · simp [(handleTurnover_frame s o).1, opponent_ne, ht]
      · rcases hk with hk | hk <;>
          simp [(handleKickoffReturn_frame s o).1, ht, hk]
      · push_neg at hk
        rw [(updateFieldPosition_frame s o).1]
        split_ifs with hc
        · simp [opponent_ne, ht, hk.1, hk.2, hc]
        · push_neg at hc
          simp only [ne_eq] at hk
          simp [ht, hk.1, hk.2]
          exact hc

theorem generateKickoff_flags (r : Rng) :
    ((generateKickoff r).1.turnover = true ↔
      (generateKickoff r).1.play_type ∈ [PlayType.Interception,
        PlayType.FumbleRecoveryOpponent, PlayType.Punt, PlayType.FieldGoalMissed,
        PlayType.Safety]) ∧
    ((generateKickoff r).1.scoring.isSome = true ↔
      (generateKickoff r).1.play_type ∈ [PlayType.RushingTouchdown,
        PlayType.PassingTouchdown, PlayType.FieldGoalGood, PlayType.Safety]) := by
  simp only [generateKickoff]
  split_ifs <;> simp

theorem generateSackPlay_flags (r : Rng) :
    ((generateSackPlay r).1.turnover = true ↔
      (generateSackPlay r).1.play_type ∈ [PlayType.Interception,
        PlayType.FumbleRecoveryOpponent, PlayType.Punt, PlayType.FieldGoalMissed,
        PlayType.Safety]) ∧
    ((generateSackPlay r).1.scoring.isSome = true ↔
      (generateSackPlay r).1.play_type ∈ [PlayType.RushingTouchdown,
        PlayType.PassingTouchdown, PlayType.FieldGoalGood, PlayType.Safety]) := by
  simp [generateSackPlay]

theorem generateRushPlay_flags (r : Rng) (yl : Nat) :
    ((generateRushPlay r yl).1.turnover = true ↔
      (generateRushPlay r yl).1.play_type ∈ [PlayType.Interception,
        PlayType.FumbleRecoveryOpponent, PlayType.Punt, PlayType.FieldGoalMissed,
        PlayType.Safety]) ∧
    ((generateRushPlay r yl).1.scoring.isSome = true ↔
      (generateRushPlay r yl).1.play_type ∈ [PlayType.RushingTouchdown,
        PlayType.PassingTouchdown, PlayType.FieldGoalGood, PlayType.Safety]) := by
  simp only [generateRushPlay]
  split_ifs <;> simp

theorem generatePassPlay_flags (r : Rng) (yl d : Nat) :
    ((generatePassPlay r yl d).1.turnover = true ↔
      (generatePassPlay r yl d).1.play_type ∈ [PlayType.Interception,
        PlayType.FumbleRecoveryOpponent, PlayType.Punt, PlayType.FieldGoalMissed,
        PlayType.Safety]) ∧
    ((generatePassPlay r yl d).1.scoring.isSome = true ↔
      (generatePassPlay r yl d).1.play_type ∈ [PlayType.RushingTouchdown,
        PlayType.PassingTouchdown, PlayType.FieldGoalGood, PlayType.Safety]) := by
  simp only [generatePassPlay]
  split_ifs <;>
    first
      | exact generateSackPlay_flags _
      | simp

theorem generateFourthDownPlay_flags (r : Rng) (distance yard_line : Nat)
    (quarter : Quarter) (clock_seconds : Nat) (possession : Possession)
    (home_score away_score : Nat) :
    ((generateFourthDownPlay r distance yard_line quarter clock_seconds possession
        home_score away_score).1.turnover = true ↔
      (generateFourthDownPlay r distance yard_line quarter clock_seconds possession
        home_score away_score).1.play_type ∈ [PlayType.Interception,
        PlayType.FumbleRecoveryOpponent, PlayType.Punt, PlayType.FieldGoalMissed,
        PlayType.Safety]) ∧
    ((generateFourthDownPlay r distance yard_line quarter clock_seconds possession
        home_score away_score).1.scoring.isSome = true ↔
      (generateFourthDownPlay r distance yard_line quarter clock_seconds possession
        home_score away_score).1.play_type ∈ [PlayType.RushingTouchdown,
        PlayType.PassingTouchdown, PlayType.FieldGoalGood, PlayType.Safety]) := by
  simp only [generateFourthDownPlay]
  split_ifs <;>
    first
      | exact generateRushPlay_flags r yard_line
      | exact generatePassPlay_flags r yard_line distance
      | simp

theorem generatePlay_flags (s : LiveState) :
    ((generatePlay s).1.turnover = true ↔
      (generatePlay s).1.play_type ∈ [PlayType.Interception,
        PlayType.FumbleRecoveryOpponent, PlayType.Punt, PlayType.FieldGoalMissed,
        PlayType.Safety]) ∧
    ((generatePlay s).1.scoring.isSome = true ↔
      (generatePlay s).1.play_type ∈ [PlayType.RushingTouchdown,
        PlayType.PassingTouchdown, PlayType.FieldGoalGood, PlayType.Safety]) := by
  simp only [generatePlay]
  split_ifs
  · exact generateKickoff_flags s.rng
  · exact generateFourthDownPlay_flags _ _ _ _ _ _ _ _
  · cases hsp : (selectPlayType s.rng s.down s.distance s.quarter
        s.clock_seconds s.yard_line).1 <;>
      simp only [hsp] <;>
      first
        | exact generateRushPlay_flags _ _
        | exact generatePassPlay_flags _ _ _
        | exact generateSackPlay_flags _

/-- C6: possession changes under `apply_play_outcome` exactly for scoring
plays (touchdown, made field goal, safety — all of which flip possession
for the ensuing kick), for turnover-flagged outcomes, and for a turnover on
downs (a non-kickoff regular play on 4th down failing to gain the
distance); kickoffs, kickoff returns and all other regular plays leave
possession unchanged.  The second and third conjuncts tie the flags to the
claim's play-type enumeration for every outcome the generator produces: the
turnover flag is set exactly on interceptions, opponent fumble recoveries,
punts, missed field goals and safeties, and the scoring flag exactly on
touchdowns, made field goals and safeties. -/
theorem possession_change_iff :
    (∀ (s : LiveState) (o : PlayOutcome),
      (applyPlayOutcome s o).possession ≠ s.possession ↔
        (o.scoring.isSome = true ∨ o.turnover = true ∨
          (o.play_type ≠ PlayType.Kickoff ∧ o.play_type ≠ PlayType.KickoffReturn ∧
            s.down = Down.Fourth ∧ ¬(u8AsI8 s.distance ≤ o.yards_gained)))) ∧
    (∀ s : LiveState,
      (generatePlay s).1.turnover = true ↔
        (generatePlay s).1.play_type ∈ [PlayType.Interception,
          PlayType.FumbleRecoveryOpponent, PlayType.Punt, PlayType.FieldGoalMissed,
          PlayType.Safety]) ∧
    (∀ s : LiveState,
      (generatePlay s).1.scoring.isSome = true ↔
        (generatePlay s).1.play_type ∈ [PlayType.RushingTouchdown,
          PlayType.PassingTouchdown, PlayType.FieldGoalGood, PlayType.Safety]) :=
  ⟨applyPlayOutcome_possession_ne_iff,
   fun s => (generatePlay_flags s).1,
   fun s => (generatePlay_flags s).2⟩

/-! ## Claim C10 -/

/-- C10: applying any generated kickoff outcome clears `kickoff_pending`,
resets to 1st and 10, and places the ball at least at the 20: a touchback
puts it exactly at the 25, and a return puts it at `max(return_yards, 20)`
(which is also at most 34, the largest generated return). -/
theorem kickoff_outcome_postconditions (s : LiveState) (r : Rng) :
    (applyPlayOutcome s (generateKickoff r).1).kickoff_pending = false ∧
    (applyPlayOutcome s (generateKickoff r).1).down = Down.First ∧
    (applyPlayOutcome s (generateKickoff r).1).distance = 10 ∧
    20 ≤ (applyPlayOutcome s (generateKickoff r).1).yard_line ∧
    ((generateKickoff r).1.play_type = PlayType.Kickoff →
      (applyPlayOutcome s (generateKickoff r).1).yard_line = 25) ∧
    ((generateKickoff r).1.play_type = PlayType.KickoffReturn →
      (applyPlayOutcome s (generateKickoff r).1).yard_line =
        (max (generateKickoff r).1.yards_gained 20).toNat ∧
      (applyPlayOutcome s (generateKickoff r).1).yard_line ≤ 34) := by
  by_cases htb : (genBool 65 100 r).1
  · simp [generateKickoff, htb, applyPlayOutcome, handleKickoffReturn]
  · obtain ⟨hy1, hy2⟩ :=
      genRangeIntExcl_fst_bounds 15 35 (genBool 65 100 r).2 (by norm_num)
    have hmx0 : (0 : Int) ≤ max (genRangeIntExcl 15 35 (genBool 65 100 r).2).1 20 := by omega
    have hmx : max (genRangeIntExcl 15 35 (genBool 65 100 r).2).1 20 % 256 =
        max (genRangeIntExcl 15 35 (genBool 65 100 r).2).1 20 :=
      Int.emod_eq_of_lt hmx0 (by omega)
    simp [generateKickoff, htb, applyPlayOutcome, handleKickoffReturn, toU8, hmx]
    omega

/-! ## Claim C4 -/

theorem generateRushPlay_types (r : Rng) (yl : Nat) :
    (generateRushPlay r yl).1.play_type ∈
      [PlayType.Rush, PlayType.RushingTouchdown, PlayType.Safety,
       PlayType.FumbleRecoveryOwn, PlayType.FumbleRecoveryOpponent] := by
  simp only [generateRushPlay]
  split_ifs <;> simp

theorem generatePassPlay_types (r : Rng) (yl d : Nat) :
    (generatePassPlay r yl d).1.play_type ∈
      [PlayType.Sack, PlayType.Interception, PlayType.PassIncompletion,
       PlayType.PassReception, PlayType.PassingTouchdown] := by
  simp only [generatePassPlay, generateSackPlay]
  split_ifs <;> simp

/-- The RNG stream that makes the concrete desperate fourth-down play a
completed short pass: no sack, no interception, no incompletion, bucket roll
0, zero yards, in bounds. -/
def desperateFgRng : Rng := ⟨fun n => [99, 999, 99, 0, 2, 99, 0].getD n 0, 0⟩

/-- C4 (as stated, refuted at a concrete input): on 4th and 5 at the
opponent 30 (`yard_line = 70 ≥ 55`) with 100 seconds left in Q4 and the
possessing home team trailing 0-7, the generated play is a pass, not a field
goal attempt — the claim's unconditional "if `yard_line ≥ 55` a field goal
is attempted" fails for a desperate team. -/
theorem desperate_in_fg_range_counterexample :
    (55 : Nat) ≤ 70 ∧
    (generateFourthDownPlay desperateFgRng 5 70 Quarter.Fourth 100
        Possession.Home 0 7).1.play_type = PlayType.PassReception ∧
    PlayType.PassReception ≠ PlayType.FieldGoalGood ∧
    PlayType.PassReception ≠ PlayType.FieldGoalMissed := by
  exact ⟨by norm_num, by decide, by decide, by decide⟩

/-- C4 (amended): the fourth-down decision tree with the desperation and
short-yardage guards the code actually applies.  With
`desperate = (Q4 ∧ clock < 120 ∧ possessing team trailing)`:
a field goal (good exactly on the distance-bucketed success draw) is
attempted iff `yard_line ≥ 55` AND not desperate; a punt happens iff
`yard_line < 55`, `yard_line < 60`, not desperate, and NOT
(`distance ≤ 2 ∧ yard_line ≥ 50`); otherwise the offense goes for it with a
rush-family or pass-family play. -/
theorem fourth_down_decision_tree (r : Rng) (distance yard_line : Nat)
    (quarter : Quarter) (clock_seconds : Nat) (possession : Possession)
    (home_score away_score : Nat) :
    (55 ≤ yard_line ∧
        ¬fourthDownDesperate quarter clock_seconds possession home_score away_score →
      ((generateFourthDownPlay r distance yard_line quarter clock_seconds possession
          home_score away_score).1.play_type = PlayType.FieldGoalGood ∨
       (generateFourthDownPlay r distance yard_line quarter clock_seconds possession
          home_score away_score).1.play_type = PlayType.FieldGoalMissed) ∧
      ((generateFourthDownPlay r distance yard_line quarter clock_seconds possession
          home_score away_score).1.play_type = PlayType.FieldGoalGood ↔
        (genBool (fgRateNum (toU8 (toU8 ((100 : Int) - (yard_line : Int)) + 17))) 100 r).1
          = true)) ∧
    (yard_line < 55 ∧ yard_line < 60 ∧
        ¬fourthDownDesperate quarter clock_seconds possession home_score away_score ∧
        ¬(distance ≤ 2 ∧ 50 ≤ yard_line) →
      (generateFourthDownPlay r distance yard_line quarter clock_seconds possession
          home_score away_score).1.play_type = PlayType.Punt) ∧
    (¬(55 ≤ yard_line ∧
        ¬fourthDownDesperate quarter clock_seconds possession home_score away_score) ∧
      ¬(yard_line < 55 ∧ yard_line < 60 ∧
        ¬fourthDownDesperate quarter clock_seconds possession home_score away_score ∧
        ¬(distance ≤ 2 ∧ 50 ≤ yard_line)) →
      (generateFourthDownPlay r distance yard_line quarter clock_seconds possession
          home_score away_score).1.play_type ∈
        [PlayType.Rush, PlayType.RushingTouchdown, PlayType.Safety,
         PlayType.FumbleRecoveryOwn, PlayType.FumbleRecoveryOpponent,
         PlayType.Sack, PlayType.Interception, PlayType.PassIncompletion,
         PlayType.PassReception, PlayType.PassingTouchdown]) := by
  simp only [generateFourthDownPlay, ge_iff_le]
  split_ifs with h1 h2 h3 h4
  · -- field goal branch, successful draw
    exact ⟨fun _ => ⟨Or.inl rfl, by simp [h2]⟩,
      fun hh => absurd hh.1 (not_lt.mpr h1.1),
      fun hh => absurd h1 hh.1⟩
  · -- field goal branch, missed draw
    exact ⟨fun _ => ⟨Or.inr rfl, by simp [h2]⟩,
      fun hh => absurd hh.1 (not_lt.mpr h1.1),
      fun hh => absurd h1 hh.1⟩
  · -- punt branch
    exact ⟨fun hh => absurd hh.1 h3.1.1,
      fun _ => rfl,
      fun hh => absurd ⟨not_le.mp h3.1.1, h3.1.2, h3.2.1, h3.2.2⟩ hh.2⟩
  · -- go for it with a rush (short yardage)
    refine ⟨fun hh => absurd hh h1,
      fun hh => absurd ⟨⟨not_le.mpr hh.1, hh.2.1⟩, hh.2.2.1, hh.2.2.2⟩ h3,
      fun _ => ?_⟩
    have hm := generateRushPlay_types r yard_line
    have hsub : ∀ x ∈ [PlayType.Rush, PlayType.RushingTouchdown, PlayType.Safety,
        PlayType.FumbleRecoveryOwn, PlayType.FumbleRecoveryOpponent],
        x ∈ [PlayType.Rush, PlayType.RushingTouchdown, PlayType.Safety,
          PlayType.FumbleRecoveryOwn, PlayType.FumbleRecoveryOpponent,
          PlayType.Sack, PlayType.Interception, PlayType.PassIncompletion,
          PlayType.PassReception, PlayType.PassingTouchdown] := by decide
    exact hsub _ hm
  · -- go for it with a pass
    refine ⟨fun hh => absurd hh h1,
      fun hh => absurd ⟨⟨not_le.mpr hh.1, hh.2.1⟩, hh.2.2.1, hh.2.2.2⟩ h3,
      fun _ => ?_⟩
    have hm := generatePassPlay_types r yard_line distance
    have hsub : ∀ x ∈ [PlayType.Sack, PlayType.Interception, PlayType.PassIncompletion,
        PlayType.PassReception, PlayType.PassingTouchdown],
        x ∈ [PlayType.Rush, PlayType.RushingTouchdown, PlayType.Safety,
          PlayType.FumbleRecoveryOwn, PlayType.FumbleRecoveryOpponent,
          PlayType.Sack, PlayType.Interception, PlayType.PassIncompletion,
          PlayType.PassReception, PlayType.PassingTouchdown] := by decide
    exact hsub _ hm

/-! ## Claim C5 -/

theorem genRange_le_of (lo hi k : Nat) (r : Rng) (h1 : lo < hi) (h2 : hi ≤ k + 1) :
    (genRange lo hi r).1 ≤ k := by
  have := genRange_fst_lt lo hi r h1
  omega

theorem generateKickoff_clock_le (r : Rng) :
    (generateKickoff r).1.clock_elapsed ≤ 44 := by
  simp only [generateKickoff]
  split_ifs
  · exact (by norm_num : (5 : Nat) ≤ 44)
  · exact genRange_le_of _ _ _ _ (by norm_num) (by norm_num)

theorem generateSackPlay_clock_le (r : Rng) :
    (generateSackPlay r).1.clock_elapsed ≤ 44 := by
  simp only [generateSackPlay]
  exact genRange_le_of _ _ _ _ (by norm_num) (by norm_num)

theorem generateRushPlay_clock_le (r : Rng) (yl : Nat) :
    (generateRushPlay r yl).1.clock_elapsed ≤ 44 := by
  simp only [generateRushPlay]
  split_ifs <;> exact genRange_le_of _ _ _ _ (by norm_num) (by norm_num)

theorem generatePassPlay_clock_le (r : Rng) (yl d : Nat) :
    (generatePassPlay r yl d).1.clock_elapsed ≤ 44 := by
  simp only [generatePassPlay]
  split_ifs <;>
    first
      | exact generateSackPlay_clock_le _
      | exact genRange_le_of _ _ _ _ (by norm_num) (by norm_num)

theorem generateFourthDownPlay_clock_le (r : Rng) (distance yard_line : Nat)
    (quarter : Quarter) (clock_seconds : Nat) (possession : Possession)
    (home_score away_score : Nat) :
    (generateFourthDownPlay r distance yard_line quarter clock_seconds possession
      home_score away_score).1.clock_elapsed ≤ 44 := by
  simp only [generateFourthDownPlay]
  split_ifs <;>
    first
      | exact (by norm_num : (5 : Nat) ≤ 44)
      | exact genRange_le_of _ _ _ _ (by norm_num) (by norm_num)
      | exact generateRushPlay_clock_le r yard_line
      | exact generatePassPlay_clock_le r yard_line distance

theorem generatePlay_clock_le (s : LiveState) :
    (generatePlay s).1.clock_elapsed ≤ 44 := by
  simp only [generatePlay]
  split_ifs
  · exact generateKickoff_clock_le s.rng
  · exact generateFourthDownPlay_clock_le _ _ _ _ _ _ _ _
  · cases hsp : (selectPlayType s.rng s.down s.distance s.quarter
        s.clock_seconds s.yard_line).1 <;>
      simp only [hsp] <;>
      first
        | exact generateRushPlay_clock_le _ _
        | exact generatePassPlay_clock_le _ _ _
        | exact generateSackPlay_clock_le _

theorem stepPlay_sim_le (s : LiveState) :
    (stepPlay s).simulated_game_seconds ≤ s.simulated_game_seconds + 44 := by
  have hb := generatePlay_clock_le s
  have hframe := applyPlayOutcome_clock_and_sim
    { s with rng := (generatePlay s).2 } (generatePlay s).1
  simp only [stepPlay]
  split_ifs <;> simp_all

theorem handleQuarterEnd_sim (s : LiveState) :
    (handleQuarterEnd s).2.simulated_game_seconds = s.simulated_game_seconds := by
  cases h : s.quarter <;> simp only [handleQuarterEnd, h] <;>
    first
      | rfl
      | (split_ifs <;> rfl)

theorem advanceLoop_sim_le (fuel : Nat) :
    ∀ s target s2, advanceLoop fuel s target = some s2 →
      s2.simulated_game_seconds ≤ max s.simulated_game_seconds (target + 43) := by
  induction fuel with
  | zero =>
      intro s target s2 h
      simp only [advanceLoop] at h
      split_ifs at h
      all_goals
        first
          | exact Option.noConfusion h
          | (injection h with h2
             subst h2
             exact le_max_left _ _)
  | succ n ih =>
      intro s target s2 h
      simp only [advanceLoop] at h
      split_ifs at h with hg hh hc hq
      · have h2 := ih _ _ _ h
        exact h2
      · have h2 := ih _ _ _ h
        rwa [handleQuarterEnd_sim] at h2
      · injection h with h2
        subst h2
        rw [handleQuarterEnd_sim]
        exact le_max_left _ _
      · have h2 := ih _ _ _ h
        have h3 := stepPlay_sim_le s
        have h4 : s.simulated_game_seconds < target := hg.1
        have h5 : (stepPlay s).simulated_game_seconds ≤ target + 43 := by omega
        calc s2.simulated_game_seconds
            ≤ max (stepPlay s).simulated_game_seconds (target + 43) := h2
          _ ≤ target + 43 := by omega
          _ ≤ max s.simulated_game_seconds (target + 43) := le_max_right _ _
      · injection h with h2
        subst h2
        exact le_max_left _ _

/-- C5 (amended): one call to the advancement routine increases
`simulated_game_seconds` by at most 14,443 game-seconds: the 14,400
runaway-guard cap plus at most one play of overshoot (every generated play
consumes at most 44 seconds, and the loop only tests the cap between
plays).  It can both overshoot 14,400 slightly and stop far earlier when the
game ends, so the advance is neither bounded by 14,400 exactly nor "exactly
4 hours" after a long idle. -/
theorem advance_increment_bounded (fuel : Nat) (s : LiveState) (t : Nat)
    (s2 : LiveState) (h : advanceToTarget fuel s t = some s2) :
    s2.simulated_game_seconds ≤ s.simulated_game_seconds + 14443 := by
  have h2 := advanceLoop_sim_le fuel s
    (min t (s.simulated_game_seconds + 3600 * 4)) s2 h
  have h3 : min t (s.simulated_game_seconds + 3600 * 4) ≤
      s.simulated_game_seconds + 14400 := by omega
  omega

/-- Witness for the amended C5: a concrete advancement call (which runs one
loop iteration and stops at the double-overtime quarter end) satisfies the
bound. -/
theorem advance_increment_bounded_witness :
    tiedDoubleOvertimeState.simulated_game_seconds ≤
      tiedDoubleOvertimeState.simulated_game_seconds + 14443 :=
  advance_increment_bounded 100 tiedDoubleOvertimeState 1000000
    tiedDoubleOvertimeState (by rfl)

/-- Draw pattern for a long open quarter: three zero-yard 44-second rushes,
then a fourth-down punt (45 yards, 9 seconds, 10-yard return), repeating. -/
def longGamePattern : List Nat :=
  [0, 99, 0, 3, 99, 19, 0, 99, 0, 3, 99, 19, 0, 99, 0, 3, 99, 19, 10, 4, 5]

/-- A live state created with an oversized first-quarter clock (20000
seconds, reachable through the creation API clock string "333:20"), from
which one advancement call can simulate past the 14,400-second cap. -/
def longGameState : LiveState :=
  { home_team := teamA, away_team := teamB, home_score := 0, away_score := 0
    quarter := Quarter.First, clock_seconds := 20000, clock_running := true
    possession := Possession.Home, down := Down.First, distance := 10
    yard_line := 50, home_timeouts := 3, away_timeouts := 3
    last_play := none, play_history := []
    rng := ⟨fun n => longGamePattern.getD (n % 21) 0, 0⟩
    simulated_game_seconds := 0, kickoff_pending := false, weather := none }

set_option maxRecDepth 1000000 in
set_option maxHeartbeats 8000000 in
/-- C5 (as stated, refuted at a concrete input): after an idle mapping to
2,160,000 game-seconds (ten hours at time scale 60), a single advancement
call started at zero simulated seconds ends at 14,426 simulated seconds —
more than the claimed 14,400 maximum, and not the claimed exactly 14,400
(the loop only re-tests the capped target between plays, so the final
44-second play overshoots the cap). -/
theorem advance_cap_counterexample :
    longGameState.simulated_game_seconds = 0 ∧
    (advanceToTarget 450 longGameState 2160000).map
      (fun t => t.simulated_game_seconds) = some 14426 ∧
    ¬(14426 ≤ (14400 : Nat)) := by
  refine ⟨rfl, by rfl, by norm_num⟩

/-! ## Additional concrete witnesses -/

/-- A plain no-gain rush outcome. -/
def rushNoGainOutcome : PlayOutcome :=
  ⟨PlayType.Rush, 0, 30, "Rush for no gain.", false, none⟩

/-- A punt outcome (negative yards by the sign convention, turnover set). -/
def puntOutcome : PlayOutcome :=
  ⟨PlayType.Punt, -40, 7, "Punt for 40 yards.", true, none⟩

/-- Witness for C3 (amended) at a concrete non-drawing outcome: applying a
plain rush leaves the RNG unchanged. -/
theorem apply_outcome_rng_mutation_iff_witness :
    (applyPlayOutcome shortClockState rushNoGainOutcome).rng = shortClockState.rng :=
  (apply_outcome_rng_mutation_iff shortClockState rushNoGainOutcome).mpr (by decide)

/-- Witness for C4 (amended) at a concrete input: 4th and 1 from the own 40
is a punt even though the distance is short, because the go-for-it guard
also requires `yard_line ≥ 50`. -/
theorem fourth_down_decision_tree_witness :
    (generateFourthDownPlay desperateFgRng 1 40 Quarter.First 900
        Possession.Home 0 0).1.play_type = PlayType.Punt :=
  (fourth_down_decision_tree desperateFgRng 1 40 Quarter.First 900
      Possession.Home 0 0).2.1
    ⟨by norm_num, by norm_num, by decide, by decide⟩

/-- Witness for C6 at a concrete input: a punt flips possession. -/
theorem possession_change_iff_witness :
    (applyPlayOutcome shortClockState puntOutcome).possession ≠
      shortClockState.possession :=
  (possession_change_iff.1 shortClockState puntOutcome).mpr (Or.inr (Or.inl rfl))

/-- Witness for C10 at a concrete input: after a kickoff outcome the
receiving team is at or beyond its own 20. -/
theorem kickoff_outcome_postconditions_witness :
    20 ≤ (applyPlayOutcome shortClockState
      (generateKickoff ⟨fun _ => 0, 0⟩).1).yard_line :=
  (kickoff_outcome_postconditions shortClockState ⟨fun _ => 0, 0⟩).2.2.2.1

end PicoScoreboard
